import Mathlib

/-
Verification development for the Mechinweb payment orchestration layer.

The definitions below are a shallow embedding of the TypeScript sources:
  * `src/lib/alternativePayments.ts` — `AlternativePaymentService` and
    `EnhancedPaymentService` (payment orchestrator, service resolver,
    currency amounts, retry loops, audit logging);
  * `supabase/functions/zoho-integration/index.ts` — the invoicing client
    (`createZohoCustomer`, `findZohoCustomer`, `createZohoInvoice`).

Conventions of the embedding:
  * JavaScript numbers that hold monetary amounts are modelled as rationals
    (`ℚ`); `parseFloat(x.toFixed(2))` is modelled by `round2`, rounding
    half-up to two decimal places, which is what `toFixed` does on exact
    decimal inputs.
  * Every external effect (Supabase auth/queries, the Zoho HTTP API, the
    live currency-rate lookup) is an oracle field of an environment record;
    a call that can throw is modelled with `Option`/`Except`.
  * `await`/`try`/`catch` control flow becomes explicit matching on those
    oracle results; retry loops become structural recursion on the
    remaining attempt budget.
-/

/-- Does `pat` occur as a contiguous sublist of the first argument? -/
def listContainsSublist : List Char → List Char → Bool
  | [], pat => pat.isEmpty
  | c :: tail, pat => pat.isPrefixOf (c :: tail) || listContainsSublist tail pat

/-- Substring test: `strContains s pat` is true when `pat` occurs inside `s`.
Models JavaScript `String.prototype.includes`. -/
def strContains (s pat : String) : Bool :=
  listContainsSublist s.data pat.data

/-- ASCII lowercasing of one character; models what
`String.prototype.toLowerCase` does on the ASCII identifiers and names this
code handles. -/
def asciiLowerChar (c : Char) : Char :=
  if 65 ≤ c.toNat && c.toNat ≤ 90 then Char.ofNat (c.toNat + 32) else c

/-- ASCII lowercasing of a string. -/
def lowerStr (s : String) : String :=
  ⟨s.data.map asciiLowerChar⟩

/-- Split a character list at `-` separators (used to phrase the UUID
regular expression structurally). -/
def splitOnDash : List Char → List (List Char)
  | [] => [[]]
  | c :: rest =>
    let r := splitOnDash rest
    if c = '-' then [] :: r
    else
      match r with
      | g :: gs => (c :: g) :: gs
      | [] => [[c]]

/-- Rounding to two decimal places, half-up.  Models
`parseFloat(x.toFixed(2))` on exact decimal inputs. -/
def round2 (q : ℚ) : ℚ :=
  ((⌊q * 100 + 1 / 2⌋ : ℤ) : ℚ) / 100

/-- The fixed fallback INR-per-USD rate `83.25` from the fallback rate table
in `calculateCurrencyAmounts`. -/
def rateINR : ℚ := 8325 / 100

/-- The fixed fallback AUD-per-USD rate `1.52` from the fallback rate table
in `calculateCurrencyAmounts`. -/
def rateAUD : ℚ := 152 / 100

/-- The three simultaneously stored currency amounts of an order. -/
structure Amounts where
  usd : ℚ
  inr : ℚ
  aud : ℚ
  deriving DecidableEq, Repr

/-- The `try` branch of `EnhancedPaymentService.calculateCurrencyAmounts`:
per-pair live conversions through `convertCurrency`, each of which may fail
(`none`); a failure of any conversion aborts the whole branch, as a thrown
exception does in the source.  The component for the transaction currency is
never converted. -/
def calculateCurrencyAmountsTry (conv : ℚ → String → String → Option ℚ)
    (amount : ℚ) (currency : String) : Option Amounts :=
  if currency = "USD" then
    match conv amount "USD" "INR" with
    | none => none
    | some inr =>
      match conv amount "USD" "AUD" with
      | none => none
      | some aud => some ⟨round2 amount, round2 inr, round2 aud⟩
  else if currency = "INR" then
    match conv amount "INR" "USD" with
    | none => none
    | some usd =>
      match conv amount "INR" "AUD" with
      | none => none
      | some aud => some ⟨round2 usd, round2 amount, round2 aud⟩
  else if currency = "AUD" then
    match conv amount "AUD" "USD" with
    | none => none
    | some usd =>
      match conv amount "AUD" "INR" with
      | none => none
      | some inr => some ⟨round2 usd, round2 inr, round2 amount⟩
  else
    some ⟨round2 amount, round2 amount, round2 amount⟩

/-- The `catch` branch of `EnhancedPaymentService.calculateCurrencyAmounts`:
the fixed rate table `{USD: 1, INR: 83.25, AUD: 1.52}`, with the two derived
components computed from the unrounded intermediate value and every returned
component rounded to two decimals. -/
def calculateCurrencyAmountsFallback (amount : ℚ) (currency : String) : Amounts :=
  if currency = "USD" then
    ⟨round2 amount, round2 (amount * rateINR), round2 (amount * rateAUD)⟩
  else if currency = "INR" then
    ⟨round2 (amount / rateINR), round2 amount, round2 (amount / rateINR * rateAUD)⟩
  else if currency = "AUD" then
    ⟨round2 (amount / rateAUD), round2 (amount / rateAUD * rateINR), round2 amount⟩
  else
    ⟨round2 amount, round2 amount, round2 amount⟩

/-- `EnhancedPaymentService.calculateCurrencyAmounts`: try the live
conversions, fall back to the fixed rate table on any failure. -/
def calculateCurrencyAmounts (conv : ℚ → String → String → Option ℚ)
    (amount : ℚ) (currency : String) : Amounts :=
  match calculateCurrencyAmountsTry conv amount currency with
  | some a => a
  | none => calculateCurrencyAmountsFallback amount currency

/-- The component of an `Amounts` record selected by a currency code, with
the AUD component as the final fallthrough (mirroring the order of the
branches in the source). -/
def componentFor (currency : String) (a : Amounts) : ℚ :=
  if currency = "USD" then a.usd
  else if currency = "INR" then a.inr
  else a.aud

/-- How many of the three stored amounts are equal to `x`. -/
def amountsEqualCount (a : Amounts) (x : ℚ) : Nat :=
  (if a.usd = x then 1 else 0) + (if a.inr = x then 1 else 0) +
    (if a.aud = x then 1 else 0)

/-
Service Resolver — `EnhancedPaymentService.resolveServiceWithFallback`.

The catalog is a list of rows (`SvcRow`), the database queries are oracle
functions that either answer or fail (`Except String`), and the four query
shapes used by the source get their Supabase semantics in `pureResolverDb`:
`eq` is exact equality on `id`, `ilike '%x%'` is case-insensitive substring
containment, `limit(1).maybeSingle()` is the first match, `limit(10)` is
`List.take 10`.
-/

/-- A row of the `services` relation as seen by the resolver. -/
structure SvcRow where
  id : String
  name : String
  category : String
  deriving DecidableEq, Repr

/-- Case-insensitive substring containment; models Supabase
`ilike('%pat%')` for patterns without further wildcard characters. -/
def ilikeContains (field pat : String) : Bool :=
  strContains (lowerStr field) (lowerStr pat)

/-- Is `c` an ASCII hex digit (either case)? -/
def isHexDigitChar (c : Char) : Bool :=
  c.isDigit || (97 ≤ c.toNat && c.toNat ≤ 102) || (65 ≤ c.toNat && c.toNat ≤ 70)

/-- The UUID shape test
`/^[0-9a-f]{8}-[0-9a-f]{4}-[1-5][0-9a-f]{3}-[89ab][0-9a-f]{3}-[0-9a-f]{12}$/i`
from strategy 1 of the resolver: five hyphen-separated hex groups of lengths
8-4-4-4-12, the third group starting with a version digit `1`-`5` and the
fourth with a variant digit in `{8, 9, a, b}` (case-insensitive). -/
def isUuidShaped (s : String) : Bool :=
  match splitOnDash s.data with
  | [a, b, c, d, e] =>
    a.length == 8 && a.all isHexDigitChar &&
    b.length == 4 && b.all isHexDigitChar &&
    c.length == 4 && c.all isHexDigitChar &&
    (match c with
     | ch :: _ => 49 ≤ ch.toNat && ch.toNat ≤ 53
     | [] => false) &&
    d.length == 4 && d.all isHexDigitChar &&
    (match d with
     | ch :: _ => [56, 57, 97, 98, 65, 66].contains ch.toNat
     | [] => false) &&
    e.length == 12 && e.all isHexDigitChar
  | _ => false

/-- The database access used by the resolver; each query can fail (a thrown
Supabase error), which the resolver's `catch` turns into `null`. -/
structure ResolverDb where
  byId : String → Except String (Option String)
  nameIlike : String → Except String (Option String)
  categoryIlike : String → Except String (Option String)
  sample10 : Except String (List SvcRow)

/-- The never-failing database access over an in-memory catalog, giving the
source's Supabase queries their standard semantics. -/
def pureResolverDb (db : List SvcRow) : ResolverDb where
  byId := fun ident => .ok ((db.find? (fun s => s.id == ident)).map (fun s => s.id))
  nameIlike := fun ident => .ok ((db.find? (fun s => ilikeContains s.name ident)).map (fun s => s.id))
  categoryIlike := fun ident => .ok ((db.find? (fun s => ilikeContains s.category ident)).map (fun s => s.id))
  sample10 := .ok (db.take 10)

/-- The predicate of the resolver's strategy 4:
`service.name.toLowerCase().includes(id.toLowerCase()) ||
 id.toLowerCase().includes(service.name.toLowerCase())`. -/
def fuzzyBidirectional (ident : String) (s : SvcRow) : Bool :=
  strContains (lowerStr s.name) (lowerStr ident) || strContains (lowerStr ident) (lowerStr s.name)

/-- The body of the `try` block of
`EnhancedPaymentService.resolveServiceWithFallback`: the four staged
strategies, each attempted only when the previous produced nothing; a thrown
database error aborts the whole computation. -/
def resolveStagesExc (dbA : ResolverDb) (ident : String) : Except String (Option String) := do
  if isUuidShaped ident then
    let r ← dbA.byId ident
    if r.isSome then
      return some ident
  let n ← dbA.nameIlike ident
  match n with
  | some i => return some i
  | none =>
    let c ← dbA.categoryIlike ident
    match c with
    | some i => return some i
    | none =>
      let sample ← dbA.sample10
      match sample.find? (fuzzyBidirectional ident) with
      | some s => return some s.id
      | none => return none

/-- `EnhancedPaymentService.resolveServiceWithFallback`: the staged search
wrapped in the `try`/`catch` that converts any thrown error into `null`. -/
def resolveServiceWithFallback (dbA : ResolverDb) (ident : String) : Option String :=
  match resolveStagesExc dbA ident with
  | .ok r => r
  | .error _ => none

/-- Stage 1 viewed as a standalone function over the catalog: a primary-key
lookup attempted only for UUID-shaped identifiers. -/
def stage1Uuid (db : List SvcRow) (ident : String) : Option String :=
  if isUuidShaped ident then (db.find? (fun s => s.id == ident)).map (fun _ => ident)
  else none

/-- Stage 2 viewed as a standalone function: first case-insensitive name
substring match. -/
def stage2Name (db : List SvcRow) (ident : String) : Option String :=
  (db.find? (fun s => ilikeContains s.name ident)).map (fun s => s.id)

/-- Stage 3 viewed as a standalone function: first case-insensitive category
substring match. -/
def stage3Category (db : List SvcRow) (ident : String) : Option String :=
  (db.find? (fun s => ilikeContains s.category ident)).map (fun s => s.id)

/-- Stage 4 viewed as a standalone function: bidirectional containment over
a sample of at most ten services. -/
def stage4Fuzzy (db : List SvcRow) (ident : String) : Option String :=
  ((db.take 10).find? (fuzzyBidirectional ident)).map (fun s => s.id)

/-
Payment Orchestrator — `EnhancedPaymentService.createPaymentIntent`.

The outer loop (`createPaymentIntentGo`) retries the whole attempt up to
`MAX_RETRIES` times, but only for errors classified retryable, with delay
`RETRY_DELAY * 2 ^ (attempt - 1)`; the inner invoicing loop (`zohoRetryGo`,
from `createZohoInvoiceWithRetry`) retries every error up to `MAX_RETRIES`
times with delay `RETRY_DELAY * attempt`.  Each Zoho invocation consumes the
next element of the `zoho` oracle stream (indexed by a global call counter),
so a scripted sequence of outcomes drives a whole run.  The state threaded
through a run is the list of order rows, the audit log, the list of delays
slept, and the call counter.
-/

/-- The `PaymentError` class: machine-readable code, human message, and the
`retryable` flag of the constructor (which defaults to `false`). -/
structure PError where
  code : String
  msg : String
  retryable : Bool := false
  deriving DecidableEq, Repr

/-- The invoice-related part of a successful Zoho integration response, as
consumed by `createZohoInvoiceAttempt`. -/
structure ZohoInvoiceResult where
  invoice_id : String
  invoice_number : String
  payment_url : String
  total : ℚ
  status : String
  customer_id : String
  deriving DecidableEq, Repr

/-- What one invocation of `createZohoInvoiceAttempt` ends with: the health
check, the HTTP call and the response handling of one attempt are collapsed
into the outcome the attempt raises or returns. -/
inductive ZohoOutcome where
  | ok (r : ZohoInvoiceResult)
  | fail (e : PError)

/-- The authenticated Supabase user, with the `email_confirmed_at` presence
collapsed to a boolean. -/
structure User where
  id : String
  emailConfirmed : Bool
  deriving DecidableEq, Repr

/-- Result of the `clients` profile query: a thrown error, no row, or a
profile row (name and email are all the orchestrator forwards). -/
inductive ClientFetch where
  | dbError
  | missing
  | found (name email : String)

/-- A service record as returned by `ServiceManager.getServiceById`: the
pricing is a finite map from package-tier name to price. -/
structure Service where
  id : String
  name : String
  pricing : List (String × ℚ)
  deriving DecidableEq, Repr

/-- One row of the `orders` relation, with the columns the orchestrator and
the alternative channels write. -/
structure Order where
  id : String
  client_id : String
  service_id : String
  package_type : String
  amount_usd : ℚ
  amount_inr : ℚ
  amount_aud : ℚ
  currency : String
  status : String
  payment_gateway : String
  zoho_invoice_id : Option String
  zoho_customer_id : Option String
  deriving DecidableEq, Repr

/-- One row of the `purchase_audit_log` relation (the fields the claims
talk about). -/
structure AuditEntry where
  action : String
  success : Bool
  error_message : String
  deriving DecidableEq, Repr

/-- The `PaymentIntent` result object of the orchestrator. -/
structure PaymentIntentR where
  invoice_id : String
  invoice_number : String
  payment_url : String
  total : ℚ
  status : String
  customer_id : String
  transaction_id : String
  deriving DecidableEq, Repr

/-- The environment of one `createPaymentIntent` call: every external
dependency as an oracle.  `zoho` is the stream of outcomes of successive
Zoho invoice attempts, indexed by a global call counter; `conv` is the live
currency-rate lookup; `newOrderId` assigns database ids to inserted orders
by insertion index. -/
structure Env where
  user : Option User
  serviceIdentifier : String
  resolveResult : Option String
  service : Option Service
  clientProfile : ClientFetch
  orderInsertOk : Bool
  orderInsertErrMsg : String
  newOrderId : Nat → String
  conv : ℚ → String → String → Option ℚ
  zoho : Nat → ZohoOutcome
  txnId : String
  auditOk : Bool

/-- `MAX_RETRIES` of `EnhancedPaymentService`. -/
def MAX_RETRIES : Nat := 3

/-- `RETRY_DELAY` of `EnhancedPaymentService` (milliseconds). -/
def RETRY_DELAY : Nat := 1000

/-- `EnhancedPaymentService.isRetryableError`: a fixed list of retryable
codes, or one of three substrings in the message.  (The message tests are
repeated under the JavaScript `some`, exactly as in the source.) -/
def isRetryableError (e : PError) : Bool :=
  ["NETWORK_ERROR", "TIMEOUT", "ZOHO_TEMPORARY_ERROR", "DATABASE_TIMEOUT", "RATE_LIMIT"].any
    (fun c =>
      e.code == c || strContains e.msg "timeout" || strContains e.msg "network" ||
        strContains e.msg "temporary")

/-- `EnhancedPaymentService.enhanceError`: keeps code and message (with the
JavaScript `||` fallbacks for empty values) and stamps the computed
retryability. -/
def enhanceError (e : PError) : PError where
  code := if e.code = "" then "PAYMENT_ERROR" else e.code
  msg := if e.msg = "" then "Payment creation failed" else e.msg
  retryable := isRetryableError e

/-- Lookup of a package tier in a service's pricing map. -/
def pricingLookup (pricing : List (String × ℚ)) (tier : String) : Option ℚ :=
  (pricing.find? (fun p => p.1 == tier)).map (fun p => p.2)

/-- The validation `!service.pricing || !service.pricing[packageType]`:
true (meaning: reject) when the tier is absent, or present with the falsy
price `0`. -/
def invalidPackageCheck (pricing : List (String × ℚ)) (tier : String) : Bool :=
  match pricingLookup pricing tier with
  | none => true
  | some p => decide (p = 0)

/-- The order row written by step 6 of the orchestrator and by the
alternative payment channels: `pending` status, no external identifiers
yet. -/
def mkPendingOrder (oid uid sid tier : String) (a : Amounts) (currency gateway : String) :
    Order where
  id := oid
  client_id := uid
  service_id := sid
  package_type := tier
  amount_usd := a.usd
  amount_inr := a.inr
  amount_aud := a.aud
  currency := currency
  status := "pending"
  payment_gateway := gateway
  zoho_invoice_id := none
  zoho_customer_id := none

/-- Step 8 of the orchestrator: update the just-created order row (the last
inserted one) with the external Zoho identifiers. -/
def updateLastOrder (z : ZohoInvoiceResult) : List Order → List Order
  | [] => []
  | [o] => [{ o with zoho_invoice_id := some z.invoice_id, zoho_customer_id := some z.customer_id }]
  | o :: rest => o :: updateLastOrder z rest

/-- The loop body of `createZohoInvoiceWithRetry`: `rem` is the remaining
attempt budget (the current attempt number is `MAX_RETRIES - rem + 1`),
`call` the global Zoho call counter.  Every failure is retried while budget
remains — the retryable classification is not consulted here — with delay
`RETRY_DELAY * attempt`.  Returns the outcome, the new call counter and the
delays slept. -/
def zohoRetryGo (zoho : Nat → ZohoOutcome) :
    Nat → Nat → Except PError ZohoInvoiceResult × Nat × List Nat
  | 0, call => (.error ⟨"", "Zoho invoice creation failed after all retries", false⟩, call, [])
  | rem + 1, call =>
    match zoho call with
    | .ok r => (.ok r, call + 1, [])
    | .fail e =>
      if rem = 0 then (.error e, call + 1, [])
      else
        let (res, call2, ds) := zohoRetryGo zoho rem (call + 1)
        (res, call2, RETRY_DELAY * (MAX_RETRIES - rem) :: ds)

/-- `EnhancedPaymentService.createZohoInvoiceWithRetry`: the inner loop with
the full `MAX_RETRIES` budget. -/
def createZohoInvoiceWithRetry (zoho : Nat → ZohoOutcome) (call : Nat) :
    Except PError ZohoInvoiceResult × Nat × List Nat :=
  zohoRetryGo zoho MAX_RETRIES call

/-- `EnhancedPaymentService.createPaymentIntentAttempt`: steps 1-8 of one
orchestrator attempt.  Returns the outcome together with the new Zoho call
counter, the new orders relation and the delays slept inside the inner
loop. -/
def createPaymentIntentAttempt (env : Env) (packageType : String) (totalPrice : ℚ)
    (currency : String) (call : Nat) (orders : List Order) :
    Except PError PaymentIntentR × Nat × List Order × List Nat :=
  match env.user with
  | none =>
    (.error ⟨"AUTH_REQUIRED", "Authentication required. Please log in to continue.", false⟩,
      call, orders, [])
  | some u =>
    if !u.emailConfirmed then
      (.error ⟨"EMAIL_NOT_VERIFIED",
        "Email verification required. Please verify your email before making purchases.", false⟩,
        call, orders, [])
    else
      match env.resolveResult with
      | none =>
        (.error ⟨"SERVICE_NOT_FOUND",
          "Service not found: " ++ env.serviceIdentifier ++
            ". Please check the service ID and try again.", false⟩, call, orders, [])
      | some serviceId =>
        match env.service with
        | none =>
          (.error ⟨"SERVICE_DATA_MISSING", "Service data not found for ID: " ++ serviceId,
            false⟩, call, orders, [])
        | some service =>
          if invalidPackageCheck service.pricing packageType then
            (.error ⟨"INVALID_PACKAGE",
              "Package type \x22" ++ packageType ++ "\x22 not available for " ++ service.name,
              false⟩, call, orders, [])
          else
            match env.clientProfile with
            | .dbError =>
              (.error ⟨"CLIENT_PROFILE_ERROR",
                "Failed to load client profile. Please try again.", false⟩, call, orders, [])
            | .missing =>
              (.error ⟨"CLIENT_PROFILE_MISSING",
                "Client profile not found. Please complete your profile setup.", false⟩,
                call, orders, [])
            | .found _ _ =>
              let amounts := calculateCurrencyAmounts env.conv totalPrice currency
              if !env.orderInsertOk then
                (.error ⟨"ORDER_CREATION_FAILED",
                  "Failed to create order: " ++ env.orderInsertErrMsg, false⟩, call, orders, [])
              else
                let order := mkPendingOrder (env.newOrderId orders.length) u.id serviceId
                  packageType amounts currency "zoho"
                let orders1 := orders ++ [order]
                match createZohoInvoiceWithRetry env.zoho call with
                | (.error e, call1, ds) => (.error e, call1, orders1, ds)
                | (.ok z, call1, ds) =>
                  (.ok ⟨z.invoice_id, z.invoice_number, z.payment_url, z.total, z.status,
                    z.customer_id, env.txnId⟩, call1, updateLastOrder z orders1, ds)

/-- The audit row written by `logPaymentFailure` (when the audit insert
itself does not fail). -/
def failureAuditEntry (e : PError) : AuditEntry where
  action := "payment_creation_failed"
  success := false
  error_message := e.msg

/-- The complete observable state of one `createPaymentIntent` run. -/
structure RunOut where
  result : Except PError PaymentIntentR
  orders : List Order
  audit : List AuditEntry
  delays : List Nat
  zohoCalls : Nat

/-- The outer loop of `EnhancedPaymentService.createPaymentIntent`: `rem` is
the remaining attempt budget (the current attempt number is
`MAX_RETRIES - rem + 1`).  On an error that is the last attempt's or not
retryable, one audit row is written (if the audit insert succeeds) and the
enhanced error is raised; otherwise the whole attempt is retried after
`RETRY_DELAY * 2 ^ (attempt - 1)`. -/
def createPaymentIntentGo (env : Env) (packageType : String) (totalPrice : ℚ)
    (currency : String) :
    Nat → Nat → List Order → List AuditEntry → List Nat → RunOut
  | 0, call, orders, audit, delays =>
    { result := .error ⟨"", "Payment creation failed after all retries", false⟩,
      orders := orders, audit := audit, delays := delays, zohoCalls := call }
  | rem + 1, call, orders, audit, delays =>
    match createPaymentIntentAttempt env packageType totalPrice currency call orders with
    | (.ok pi, call1, orders1, ds) =>
      { result := .ok pi, orders := orders1, audit := audit, delays := delays ++ ds,
        zohoCalls := call1 }
    | (.error e, call1, orders1, ds) =>
      if rem = 0 || !isRetryableError e then
        { result := .error (enhanceError e), orders := orders1,
          audit := audit ++ (if env.auditOk then [failureAuditEntry e] else []),
          delays := delays ++ ds, zohoCalls := call1 }
      else
        createPaymentIntentGo env packageType totalPrice currency rem call1 orders1 audit
          (delays ++ ds ++ [RETRY_DELAY * 2 ^ (MAX_RETRIES - (rem + 1))])

/-- `EnhancedPaymentService.createPaymentIntent`, started with a full
attempt budget on an initial orders relation `orders0`. -/
def createPaymentIntent (env : Env) (packageType : String) (totalPrice : ℚ)
    (currency : String) (orders0 : List Order) : RunOut :=
  createPaymentIntentGo env packageType totalPrice currency MAX_RETRIES 0 orders0 [] []

/-- Is an `Except` outcome a success? -/
def exceptIsOk {ε α : Type} : Except ε α → Bool
  | .ok _ => true
  | .error _ => false

/-- The error code of a failed outcome, if any. -/
def resultErrCode {α : Type} : Except PError α → Option String
  | .ok _ => none
  | .error e => some e.code

/-- A catalog service used by the concrete scenarios: one `basic` tier
priced 4 USD. -/
def svcBasic : Service :=
  ⟨"svc-1", "Email Migration and Setup", [("basic", 4)]⟩

/-- An authenticated, email-verified user. -/
def okUser : User := ⟨"user-1", true⟩

/-- A successful Zoho integration response. -/
def okZohoResult : ZohoInvoiceResult :=
  ⟨"inv-1", "MW-1", "https://invoice.zoho.in/invoices/inv-1/payment", 4, "sent", "cust-1"⟩

/-- A retryable failure: code `TIMEOUT` is in the retryable list. -/
def timeoutPError : PError := ⟨"TIMEOUT", "request timeout", false⟩

/-- A non-retryable failure: the code is not in the retryable list and the
message has none of the retryable substrings. -/
def zohoAuthPError : PError :=
  ⟨"ZOHO_AUTH_FAILED", "Payment gateway authentication failed. Please try again.", false⟩

/-- The baseline healthy environment: verified user, resolvable service,
existing client profile, succeeding order insert, failing live-rate lookup
(so the fixed fallback rates apply), and a Zoho oracle that succeeds on
every call. -/
def baseEnv : Env where
  user := some okUser
  serviceIdentifier := "svc-1"
  resolveResult := some "svc-1"
  service := some svcBasic
  clientProfile := .found "Alice Smith" "alice@example.com"
  orderInsertOk := true
  orderInsertErrMsg := ""
  newOrderId := fun n => "ord-" ++ toString n
  conv := fun _ _ _ => none
  zoho := fun _ => .ok okZohoResult
  txnId := "txn-1"
  auditOk := true

/-
Invoicing Client — `supabase/functions/zoho-integration/index.ts`.

`createZohoCustomer`, `findZohoCustomer` and `createZohoInvoice` are driven
by oracles for the Zoho HTTP responses; every function additionally returns
the trace of Zoho endpoints it invoked (a `List ZohoCall`), which is what
the claims about call ordering are stated over.
-/

/-- The Zoho endpoints the integration function can invoke. -/
inductive ZohoCall where
  | createContact
  | searchContactsByEmail
  | searchContactsByName
  | postInvoice
  | markInvoiceSent
  | fetchInvoice
  deriving DecidableEq, Repr

/-- A Zoho contact record (the fields the integration reads). -/
structure Contact where
  contact_id : String
  contact_name : String
  email : String
  deriving DecidableEq, Repr

/-- Oracle for the two contact endpoints used by the customer step: the
creation POST (either the created `data.contact` or a non-ok status with
error text) and the query-by-email GET (either the `contacts` array or a
non-ok status with error text). -/
structure CustomerEnv where
  createResp : Except (Nat × String) Contact
  emailSearchResp : Except (Nat × String) (List Contact)

/-- `findZohoCustomer`: query contacts by email; a non-ok response or an
empty `contacts` array is a thrown error, otherwise the first contact is
returned. -/
def findZohoCustomer (env : CustomerEnv) (email : String) :
    Except String Contact × List ZohoCall :=
  match env.emailSearchResp with
  | .error (status, body) =>
    (.error ("Customer search failed: " ++ toString status ++ " " ++ body),
      [.searchContactsByEmail])
  | .ok [] => (.error ("Customer not found: " ++ email), [.searchContactsByEmail])
  | .ok (c :: _) => (.ok c, [.searchContactsByEmail])

/-- The condition under which a failed contact creation triggers the
find-existing-customer recovery: status 400 or 422, or an error text
containing `already exists` or `duplicate`. -/
def customerDupRecovery (status : Nat) (errorText : String) : Bool :=
  status == 400 || status == 422 || strContains errorText "already exists" ||
    strContains errorText "duplicate"

/-- `createZohoCustomer`: POST the contact immediately; on a qualifying
failure, recover once through `findZohoCustomer` (by email); if that also
fails, raise the original creation failure. -/
def createZohoCustomer (env : CustomerEnv) (email : String) :
    Except String Contact × List ZohoCall :=
  match env.createResp with
  | .ok contact => (.ok contact, [.createContact])
  | .error (status, errorText) =>
    if customerDupRecovery status errorText then
      match findZohoCustomer env email with
      | (.ok c, calls) => (.ok c, .createContact :: calls)
      | (.error _, calls) =>
        (.error ("Customer creation failed: " ++ toString status ++ " " ++ errorText),
          .createContact :: calls)
    else
      (.error ("Customer creation failed: " ++ toString status ++ " " ++ errorText),
        [.createContact])

/-- One entry of the `serviceItems` array of an invoice request. -/
structure ServiceItem where
  serviceName : String
  packageType : String
  quantity : Nat
  unitPrice : ℚ
  totalPrice : ℚ
  deriving DecidableEq, Repr

/-- The body of a POST invoice request to the integration function. -/
structure InvoiceRequest where
  serviceItems : List ServiceItem
  currency : String
  notes : Option String
  deriving DecidableEq, Repr

/-- One Zoho invoice line item as built by `createZohoInvoice`. -/
structure LineItem where
  name : String
  description : String
  rate : ℚ
  quantity : Nat
  item_total : ℚ
  deriving DecidableEq, Repr

/-- The line item built from one service item: the description interpolates
the service name, the package type and the quantity. -/
def lineItemOfServiceItem (item : ServiceItem) : LineItem where
  name := item.serviceName
  description := item.serviceName ++ " - " ++ item.packageType ++
    " Package (Quantity: " ++ toString item.quantity ++ ")"
  rate := item.unitPrice
  quantity := item.quantity
  item_total := item.totalPrice

/-- Milliseconds per day; `30 * 24 * 60 * 60 * 1000` appears in the due
date computation. -/
def MS_PER_DAY : Nat := 24 * 60 * 60 * 1000

/-- The invoice payload POSTed to Zoho.  The two dates are modelled as the
epoch milliseconds they are computed from (the source truncates them to
day-precision ISO strings); `invoice_number` is an `Option` so that
supplying no number (provider auto-assignment) is representable. -/
structure InvoicePayload where
  customer_id : String
  invoice_number : Option String
  dateMs : Nat
  dueDateMs : Nat
  line_items : List LineItem
  notes : String
  terms : String
  currency_code : String
  deriving DecidableEq, Repr

/-- The payload construction inside `createZohoInvoice`, at current time
`nowMs` (the source's `Date.now()`). -/
def buildInvoicePayload (customerId : String) (nowMs : Nat) (req : InvoiceRequest) :
    InvoicePayload where
  customer_id := customerId
  invoice_number := some ("MW-" ++ toString nowMs)
  dateMs := nowMs
  dueDateMs := nowMs + 30 * MS_PER_DAY
  line_items := req.serviceItems.map lineItemOfServiceItem
  notes := req.notes.getD "Thank you for choosing Mechinweb!"
  terms := "Payment due within 30 days. Service delivery begins upon payment confirmation."
  currency_code := req.currency

/-- The `data.invoice` object of a successful Zoho invoice-creation
response. -/
structure InvoiceObj where
  invoice_id : String
  invoice_number : String
  total : ℚ
  status : String
  deriving DecidableEq, Repr

/-- Oracle for the invoice-creation POST: a non-ok status with error text,
an ok response without an `invoice` object, or the invoice object. -/
structure InvoiceEnv where
  postResp : Except (Nat × String) (Option InvoiceObj)

/-- `createZohoInvoice`: validate the customer id, POST the payload, and on
success return the invoice fields with a payment URL synthesized from the
invoice id.  The second component records which Zoho endpoints were invoked,
the third the payload that was POSTed (if the POST was reached). -/
def createZohoInvoice (env : InvoiceEnv) (customerId : String) (nowMs : Nat)
    (req : InvoiceRequest) :
    Except String ZohoInvoiceResult × List ZohoCall × Option InvoicePayload :=
  if customerId = "" || customerId = "undefined" || customerId = "null" then
    (.error ("Invalid customer ID: " ++ customerId), [], none)
  else
    let payload := buildInvoicePayload customerId nowMs req
    match env.postResp with
    | .error (status, body) =>
      (.error ("Invoice creation failed: " ++ toString status ++ " " ++ body),
        [.postInvoice], some payload)
    | .ok none => (.error "No invoice data in response", [.postInvoice], some payload)
    | .ok (some inv) =>
      (.ok ⟨inv.invoice_id, inv.invoice_number,
        "https://invoice.zoho.in/invoices/" ++ inv.invoice_id ++ "/payment",
        inv.total, inv.status, customerId⟩, [.postInvoice], some payload)

/-
Alternative Payment Fallback — `AlternativePaymentService`.
-/

/-- The inline three-currency computation of the alternative channels
(`createEmailPayment` / `createBankTransferPayment`): unrounded, and both
derived components are computed as if the transaction amount were USD. -/
def altChannelAmounts (amount : ℚ) (currency : String) : Amounts where
  usd := if currency = "USD" then amount else amount / rateINR
  inr := if currency = "INR" then amount else amount * rateINR
  aud := if currency = "AUD" then amount else amount * rateAUD

/-- The `orderData` argument of the alternative channels. -/
structure AltOrderData where
  serviceId : String
  serviceName : String
  packageType : String
  amount : ℚ
  currency : String
  clientEmail : String
  clientName : String
  deriving DecidableEq, Repr

/-- The body of the pre-filled payment-request email. -/
def emailPaymentBody (d : AltOrderData) (orderId : String) : String :=
  "\nDear Mechinweb Team,\n\nI would like to proceed with payment for my order:\n\n" ++
    "Order ID: " ++ orderId ++ "\nService: " ++ d.serviceName ++ "\nPackage: " ++
    d.packageType ++ "\nAmount: " ++ toString d.amount ++ " " ++ d.currency ++ "\nClient: " ++
    d.clientName ++ "\nEmail: " ++ d.clientEmail ++
    "\n\nPlease send me payment instructions.\n\nBest regards,\n" ++ d.clientName ++ "\n"

/-- `AlternativePaymentService.createEmailPayment`: requires an
authenticated user, inserts a pending order tagged `email` with the inline
amounts, and returns a `mailto:` compose URL (`enc` is the browser's
`encodeURIComponent`). -/
def createEmailPayment (user : Option String) (insertOk : Bool) (newOrderId : String)
    (enc : String → String) (d : AltOrderData) : Except String (Order × String) :=
  match user with
  | none => .error "Authentication required"
  | some uid =>
    if !insertOk then .error "order insert failed"
    else
      let o := mkPendingOrder newOrderId uid d.serviceId d.packageType
        (altChannelAmounts d.amount d.currency) d.currency "email"
      .ok (o, "mailto:contact@mechinweb.com?subject=" ++
        enc ("Payment for " ++ d.serviceName ++ " - Order " ++ newOrderId) ++
        "&body=" ++ enc (emailPaymentBody d newOrderId))

/-- `AlternativePaymentService.createBankTransferPayment`: same order
insertion with gateway `bank_transfer`, returning the internal
instructions-page URL. -/
def createBankTransferPayment (user : Option String) (insertOk : Bool) (newOrderId : String)
    (d : AltOrderData) : Except String (Order × String) :=
  match user with
  | none => .error "Authentication required"
  | some uid =>
    if !insertOk then .error "order insert failed"
    else
      let o := mkPendingOrder newOrderId uid d.serviceId d.packageType
        (altChannelAmounts d.amount d.currency) d.currency "bank_transfer"
      .ok (o, "/payment/bank-transfer?order_id=" ++ newOrderId)

/-- An invoice-creation oracle that succeeds with a concrete invoice
object. -/
def invEnvOk : InvoiceEnv := ⟨.ok (some ⟨"inv-9", "INV-000123", 200, "draft"⟩)⟩

/-- A concrete invoice request used by the scenarios. -/
def sampleReq : InvoiceRequest :=
  ⟨[⟨"Email Migration and Setup", "basic", 50, 4, 200⟩], "USD", none⟩

/-- A contact-creation oracle that succeeds immediately. -/
def custEnvCreateOk : CustomerEnv :=
  ⟨.ok ⟨"cust-7", "Alice Smith", "alice@example.com"⟩, .ok []⟩

/-- A contact-creation oracle that is rejected with `already exists` while
the email search finds nothing. -/
def custEnvDupNoMatch : CustomerEnv :=
  ⟨.error (400, "contact already exists"), .ok []⟩

/-- The one-row catalog used by the resolver witness. -/
def dbUuidRow : List SvcRow :=
  [⟨"123e4567-e89b-42d3-a456-426614174000", "Email Migration and Setup", "email"⟩]

/-- A resolver database access in which every query throws (the database is
unreachable). -/
def failingResolverDb : ResolverDb where
  byId := fun _ => .error "database unreachable"
  nameIlike := fun _ => .error "database unreachable"
  categoryIlike := fun _ => .error "database unreachable"
  sample10 := .error "database unreachable"

/-- The order row of an alternative-channel result, when it succeeded. -/
def orderOfAlt (r : Except String (Order × String)) : Option Order :=
  match r with
  | .ok (o, _) => some o
  | .error _ => none

/-- The concrete order data of the C8 scenario: 152 AUD for the basic
tier. -/
def dC8 : AltOrderData :=
  ⟨"svc-1", "Email Migration and Setup", "basic", 152, "AUD", "alice@example.com",
    "Alice Smith"⟩

/-- The environment of the C1 counterexample: the first three Zoho calls
fail with a retryable timeout, the fourth succeeds. -/
def envC1 : Env :=
  { baseEnv with zoho := fun i => if i < 3 then .fail timeoutPError else .ok okZohoResult }

/-- The environment of the C1 witness scenario: the first two Zoho calls
fail with a retryable timeout, the third succeeds. -/
def envC1w : Env :=
  { baseEnv with zoho := fun i => if i < 2 then .fail timeoutPError else .ok okZohoResult }

/-- The environment of the C2 counterexample: the first Zoho call fails
with a non-retryable authentication error, the second succeeds. -/
def envC2 : Env :=
  { baseEnv with zoho := fun i => if i = 0 then .fail zohoAuthPError else .ok okZohoResult }

/-- The environment of the C2 witness: every Zoho call fails with the same
non-retryable authentication error. -/
def envC2w : Env := { baseEnv with zoho := fun _ => .fail zohoAuthPError }

/-- Evaluation rule for `round2` at a concrete rational: supplying the two
bracketing inequalities pins the floor down. -/
theorem round2_eq (q : ℚ) (z : ℤ) (h1 : (z : ℚ) ≤ q * 100 + 1 / 2)
    (h2 : q * 100 + 1 / 2 < z + 1) : round2 q = (z : ℚ) / 100 := by
  rw [round2, Int.floor_eq_iff.mpr ⟨h1, h2⟩]

example : round2 (1 / 152 : ℚ) = (1 : ℤ) / 100 := round2_eq _ 1 (by norm_num) (by norm_num)

example : calculateCurrencyAmountsFallback (1 / 100) "AUD" = ⟨1 / 100, 55 / 100, 1 / 100⟩ := by
  have h1 : round2 (1 / 100 / rateAUD) = ((1 : ℤ) : ℚ) / 100 :=
    round2_eq _ 1 (by rw [rateAUD]; norm_num) (by rw [rateAUD]; norm_num)
  have h2 : round2 (1 / 100 / rateAUD * rateINR) = ((55 : ℤ) : ℚ) / 100 :=
    round2_eq _ 55 (by rw [rateAUD, rateINR]; norm_num) (by rw [rateAUD, rateINR]; norm_num)
  have h3 : round2 (1 / 100 : ℚ) = ((1 : ℤ) : ℚ) / 100 :=
    round2_eq _ 1 (by norm_num) (by norm_num)
  simp only [calculateCurrencyAmountsFallback, String.reduceEq, reduceIte]
  rw [h1, h2, h3]
  norm_num

example : isUuidShaped "123e4567-e89b-42d3-a456-426614174000" = true := by decide
example : isUuidShaped "email-migration" = false := by decide
example :
    resolveServiceWithFallback
      (pureResolverDb [⟨"123e4567-e89b-42d3-a456-426614174000", "Email Migration & Setup", "email"⟩])
      "123e4567-e89b-42d3-a456-426614174000" = some "123e4567-e89b-42d3-a456-426614174000" := by decide
example :
    resolveServiceWithFallback
      (pureResolverDb [⟨"123e4567-e89b-42d3-a456-426614174000", "Email Migration & Setup", "email"⟩])
      "migration" = some "123e4567-e89b-42d3-a456-426614174000" := by decide
example :
    resolveServiceWithFallback
      (pureResolverDb [⟨"123e4567-e89b-42d3-a456-426614174000", "Email Migration & Setup", "email"⟩])
      "nonexistent" = none := by decide

example : isRetryableError timeoutPError = true := by decide
example : isRetryableError zohoAuthPError = false := by decide
example :
    exceptIsOk (createPaymentIntent
      { baseEnv with zoho := fun i => if i < 3 then .fail timeoutPError else .ok okZohoResult }
      "basic" 4 "USD" []).result = true := by decide
example :
    (createPaymentIntent
      { baseEnv with zoho := fun i => if i < 3 then .fail timeoutPError else .ok okZohoResult }
      "basic" 4 "USD" []).orders.length = 2 := by decide
example :
    (createPaymentIntent
      { baseEnv with zoho := fun i => if i = 0 then .fail zohoAuthPError else .ok okZohoResult }
      "basic" 4 "USD" []).zohoCalls = 2 := by decide
example :
    (createPaymentIntent
      { baseEnv with zoho := fun i => if i = 0 then .fail zohoAuthPError else .ok okZohoResult }
      "basic" 4 "USD" []).audit = [] := by decide

/-
Helper lemmas about the substring test.
-/

/-- A list is a `List.isPrefixOf` of itself followed by anything. -/
theorem isPrefixOf_append_self (l t : List Char) : l.isPrefixOf (l ++ t) = true := by
  induction l with
  | nil => simp [List.isPrefixOf]
  | cons a as ih => simp [List.isPrefixOf, ih]

/-- The substring scan finds a pattern that occurs as a contiguous block. -/
theorem listContainsSublist_append (a pat b : List Char) :
    listContainsSublist (a ++ (pat ++ b)) pat = true := by
  induction a with
  | nil =>
    rw [List.nil_append]
    cases h : pat ++ b with
    | nil =>
      have hp : pat = [] := by
        cases pat with
        | nil => rfl
        | cons x xs => simp at h
      subst hp
      rfl
    | cons c cs =>
      show (pat.isPrefixOf (c :: cs) || listContainsSublist cs pat) = true
      rw [← h, isPrefixOf_append_self]
      rfl
  | cons x xs ih =>
    show (pat.isPrefixOf (x :: (xs ++ (pat ++ b))) || listContainsSublist (xs ++ (pat ++ b)) pat)
        = true
    rw [ih, Bool.or_true]

/-- `strContains` finds a pattern spliced between two strings. -/
theorem strContains_append (x q y : String) : strContains (x ++ q ++ y) q = true := by
  show listContainsSublist (x ++ q ++ y).data q.data = true
  rw [String.data_append, String.data_append, List.append_assoc]
  exact listContainsSublist_append x.data q.data y.data

/-
Claim C5 — invoice line items, due date, invoice number.
-/

/-- C5 counterexample: the invoice payload does not let the provider
auto-assign the invoice number — it supplies its own `MW-<timestamp>`
number.  At current time 1000 the payload carries `some "MW-1000"` instead
of no number. -/
theorem c5_counterexample :
    (buildInvoicePayload "cust-1" 1000
        ⟨[⟨"Email Migration and Setup", "basic", 50, 4, 200⟩], "USD", none⟩).invoice_number
        = some "MW-1000"
    ∧ (buildInvoicePayload "cust-1" 1000
        ⟨[⟨"Email Migration and Setup", "basic", 50, 4, 200⟩], "USD", none⟩).invoice_number
        ≠ none := by
  constructor
  · decide
  · decide

/-- C5 (amended): for every invoice creation request, the payload builds one
line item per service item — name = service name, rate = unit price, the
quantity, item total = line total, and a description that references the
quantity — sets the due date 30 days after the invoice date, and copies the
request currency; but instead of letting the provider auto-assign the
invoice number it supplies its own `MW-<timestamp>` number. -/
theorem c5_invoice_payload (customerId : String) (nowMs : Nat) (req : InvoiceRequest) :
    (buildInvoicePayload customerId nowMs req).line_items =
        req.serviceItems.map lineItemOfServiceItem
    ∧ (∀ item : ServiceItem,
        (lineItemOfServiceItem item).name = item.serviceName
        ∧ (lineItemOfServiceItem item).rate = item.unitPrice
        ∧ (lineItemOfServiceItem item).quantity = item.quantity
        ∧ (lineItemOfServiceItem item).item_total = item.totalPrice
        ∧ strContains (lineItemOfServiceItem item).description (toString item.quantity) = true)
    ∧ (buildInvoicePayload customerId nowMs req).dueDateMs =
        (buildInvoicePayload customerId nowMs req).dateMs + 30 * MS_PER_DAY
    ∧ (buildInvoicePayload customerId nowMs req).invoice_number =
        some ("MW-" ++ toString nowMs)
    ∧ (buildInvoicePayload customerId nowMs req).currency_code = req.currency := by
  refine ⟨rfl, fun item => ⟨rfl, rfl, rfl, rfl, ?_⟩, rfl, rfl, rfl⟩
  have hd : (lineItemOfServiceItem item).description =
      (item.serviceName ++ " - " ++ item.packageType ++ " Package (Quantity: ") ++
        toString item.quantity ++ ")" := rfl
  rw [hd]
  exact strContains_append _ _ _

/-
Claim C3 — mark-sent and payment-URL retrieval.
-/

/-- C3 counterexample: a successful invoice creation whose call trace is
just the creation POST — the invoicing client neither invokes a mark-sent
endpoint nor re-fetches the invoice, and it synthesizes the payment URL
unconditionally. -/
theorem c3_counterexample :
    exceptIsOk (createZohoInvoice invEnvOk "cust-1" 1000 sampleReq).1 = true
    ∧ (createZohoInvoice invEnvOk "cust-1" 1000 sampleReq).2.1 = [ZohoCall.postInvoice]
    ∧ ((createZohoInvoice invEnvOk "cust-1" 1000 sampleReq).2.1.contains
        ZohoCall.markInvoiceSent) = false
    ∧ ((createZohoInvoice invEnvOk "cust-1" 1000 sampleReq).2.1.contains
        ZohoCall.fetchInvoice) = false := by
  refine ⟨?_, ?_, ?_, ?_⟩ <;> decide

/-- C3 (amended): after a successful invoice creation the invoicing client
does not transition the invoice to sent and does not re-fetch it; the only
Zoho call is the creation POST, and the customer-facing payment URL is
always synthesized as `https://invoice.zoho.in/invoices/<invoice_id>/payment`
from the invoice id alone, regardless of what the provider returned. -/
theorem c3_payment_url_synthesis (env : InvoiceEnv) (customerId : String) (nowMs : Nat)
    (req : InvoiceRequest) (inv : InvoiceObj)
    (h1 : customerId ≠ "") (h2 : customerId ≠ "undefined") (h3 : customerId ≠ "null")
    (hpost : env.postResp = .ok (some inv)) :
    createZohoInvoice env customerId nowMs req =
      (.ok ⟨inv.invoice_id, inv.invoice_number,
          "https://invoice.zoho.in/invoices/" ++ inv.invoice_id ++ "/payment",
          inv.total, inv.status, customerId⟩,
        [ZohoCall.postInvoice], some (buildInvoicePayload customerId nowMs req))
    ∧ ((createZohoInvoice env customerId nowMs req).2.1.contains
        ZohoCall.markInvoiceSent) = false
    ∧ ((createZohoInvoice env customerId nowMs req).2.1.contains
        ZohoCall.fetchInvoice) = false := by
  have he : createZohoInvoice env customerId nowMs req =
      (.ok ⟨inv.invoice_id, inv.invoice_number,
          "https://invoice.zoho.in/invoices/" ++ inv.invoice_id ++ "/payment",
          inv.total, inv.status, customerId⟩,
        [ZohoCall.postInvoice], some (buildInvoicePayload customerId nowMs req)) := by
    simp [createZohoInvoice, hpost, h1, h2, h3]
  refine ⟨he, ?_, ?_⟩ <;> rw [he] <;> rfl

/-- C3 witness: the amended behaviour at the concrete successful
scenario. -/
theorem c3_witness :
    createZohoInvoice invEnvOk "cust-1" 1000 sampleReq =
      (.ok ⟨"inv-9", "INV-000123", "https://invoice.zoho.in/invoices/inv-9/payment",
          200, "draft", "cust-1"⟩,
        [ZohoCall.postInvoice], some (buildInvoicePayload "cust-1" 1000 sampleReq)) :=
  (c3_payment_url_synthesis invEnvOk "cust-1" 1000 sampleReq ⟨"inv-9", "INV-000123", 200, "draft"⟩
    (by decide) (by decide) (by decide) rfl).1

/-
Claim C4 — find-or-create customer.
-/

/-- C4 counterexample: (i) on a successful creation the trace is just the
creation POST — no lookup by email happened first; (ii) when creation is
rejected as a duplicate and the email search finds nothing, the client gives
up without ever searching by name. -/
theorem c4_counterexample :
    (createZohoCustomer custEnvCreateOk "alice@example.com").2 = [ZohoCall.createContact]
    ∧ ((createZohoCustomer custEnvCreateOk "alice@example.com").2.contains
        ZohoCall.searchContactsByEmail) = false
    ∧ exceptIsOk (createZohoCustomer custEnvDupNoMatch "alice@example.com").1 = false
    ∧ ((createZohoCustomer custEnvDupNoMatch "alice@example.com").2.contains
        ZohoCall.searchContactsByName) = false := by
  refine ⟨?_, ?_, ?_, ?_⟩ <;> decide

/-- C4 (amended): the invoicing client submits the contact-creation request
directly, with no prior lookup; only when creation is rejected with HTTP 400
or 422 or with an error text containing `already exists` or `duplicate` does
it recover by re-searching by email (taking the first match); if that search
fails or finds none, the original creation failure is raised.  It never
searches by name. -/
theorem c4_customer_create_first (env : CustomerEnv) (email : String) :
    ((createZohoCustomer env email).2.contains ZohoCall.searchContactsByName) = false
    ∧ (∀ c, env.createResp = .ok c →
        createZohoCustomer env email = (.ok c, [ZohoCall.createContact]))
    ∧ (∀ status body, env.createResp = .error (status, body) →
        customerDupRecovery status body = true →
        ∀ c rest, env.emailSearchResp = .ok (c :: rest) →
          createZohoCustomer env email =
            (.ok c, [ZohoCall.createContact, ZohoCall.searchContactsByEmail]))
    ∧ (∀ status body, env.createResp = .error (status, body) →
        customerDupRecovery status body = true →
        env.emailSearchResp = .ok [] →
          createZohoCustomer env email =
            (.error ("Customer creation failed: " ++ toString status ++ " " ++ body),
              [ZohoCall.createContact, ZohoCall.searchContactsByEmail]))
    ∧ (∀ status body, env.createResp = .error (status, body) →
        customerDupRecovery status body = false →
          createZohoCustomer env email =
            (.error ("Customer creation failed: " ++ toString status ++ " " ++ body),
              [ZohoCall.createContact])) := by
  refine ⟨?_, ?_, ?_, ?_, ?_⟩
  · match hc : env.createResp with
    | .ok c => simp [createZohoCustomer, hc]
    | .error (status, body) =>
      by_cases hdup : customerDupRecovery status body
      · match hs : env.emailSearchResp with
        | .error (st2, b2) => simp [createZohoCustomer, findZohoCustomer, hc, hs, hdup]
        | .ok [] => simp [createZohoCustomer, findZohoCustomer, hc, hs, hdup]
        | .ok (c :: rest) => simp [createZohoCustomer, findZohoCustomer, hc, hs, hdup]
      · simp [createZohoCustomer, hc, Bool.of_not_eq_true hdup]
  · intro c hc
    simp [createZohoCustomer, hc]
  · intro status body hc hdup c rest hs
    simp [createZohoCustomer, findZohoCustomer, hc, hs, hdup]
  · intro status body hc hdup hs
    simp [createZohoCustomer, findZohoCustomer, hc, hs, hdup]
  · intro status body hc hdup
    simp [createZohoCustomer, hc, hdup]

/-- C4 witness: instantiating the amended theorem at the concrete
environments. -/
theorem c4_witness :
    createZohoCustomer custEnvCreateOk "alice@example.com" =
      (.ok ⟨"cust-7", "Alice Smith", "alice@example.com"⟩, [ZohoCall.createContact])
    ∧ createZohoCustomer custEnvDupNoMatch "alice@example.com" =
      (.error ("Customer creation failed: " ++ toString 400 ++ " contact already exists"),
        [ZohoCall.createContact, ZohoCall.searchContactsByEmail]) :=
  ⟨(c4_customer_create_first custEnvCreateOk "alice@example.com").2.1 _ rfl,
    (c4_customer_create_first custEnvDupNoMatch "alice@example.com").2.2.2.1 400
      "contact already exists" rfl (by decide) rfl⟩

/-
Claim C6 — the four resolver stages.
-/

/-- On a healthy database the resolver computes exactly the first-success
chaining of the four stages. -/
theorem resolve_pure_staged (db : List SvcRow) (ident : String) :
    resolveServiceWithFallback (pureResolverDb db) ident =
      (match stage1Uuid db ident with
       | some x => some x
       | none =>
         match stage2Name db ident with
         | some x => some x
         | none =>
           match stage3Category db ident with
           | some x => some x
           | none => stage4Fuzzy db ident) := by
  by_cases hu : isUuidShaped ident <;>
    cases h1 : db.find? (fun s => s.id == ident) <;>
    cases h2 : db.find? (fun s => ilikeContains s.name ident) <;>
    cases h3 : db.find? (fun s => ilikeContains s.category ident) <;>
    cases h4 : (db.take 10).find? (fuzzyBidirectional ident) <;>
    simp [resolveServiceWithFallback, resolveStagesExc, pureResolverDb, stage1Uuid,
      stage2Name, stage3Category, stage4Fuzzy, hu, h1, h2, h3, h4, bind, Except.bind, pure,
      Except.pure]

/-- C6: the resolver attempts the four stages in order, each stage only
when every earlier stage produced no match; not-found is returned exactly
when all four stages fail; and an identifier that is UUID-shaped and is the
primary key of a catalog row resolves in stage one to that very
identifier. -/
theorem c6_resolver_stages (db : List SvcRow) (ident : String) :
    (∀ x, stage1Uuid db ident = some x →
        resolveServiceWithFallback (pureResolverDb db) ident = some x)
    ∧ (stage1Uuid db ident = none → ∀ x, stage2Name db ident = some x →
        resolveServiceWithFallback (pureResolverDb db) ident = some x)
    ∧ (stage1Uuid db ident = none → stage2Name db ident = none →
        ∀ x, stage3Category db ident = some x →
        resolveServiceWithFallback (pureResolverDb db) ident = some x)
    ∧ (stage1Uuid db ident = none → stage2Name db ident = none →
        stage3Category db ident = none →
        resolveServiceWithFallback (pureResolverDb db) ident = stage4Fuzzy db ident)
    ∧ (resolveServiceWithFallback (pureResolverDb db) ident = none ↔
        stage1Uuid db ident = none ∧ stage2Name db ident = none ∧
        stage3Category db ident = none ∧ stage4Fuzzy db ident = none)
    ∧ (isUuidShaped ident = true → ∀ row ∈ db, row.id = ident →
        resolveServiceWithFallback (pureResolverDb db) ident = some ident) := by
  refine ⟨?_, ?_, ?_, ?_, ?_, ?_⟩
  · intro x hx
    rw [resolve_pure_staged, hx]
  · intro h1 x hx
    rw [resolve_pure_staged, h1, hx]
  · intro h1 h2 x hx
    rw [resolve_pure_staged, h1, h2, hx]
  · intro h1 h2 h3
    rw [resolve_pure_staged, h1, h2, h3]
  · rw [resolve_pure_staged]
    cases h1 : stage1Uuid db ident <;> cases h2 : stage2Name db ident <;>
      cases h3 : stage3Category db ident <;> cases h4 : stage4Fuzzy db ident <;>
      simp [h1, h2, h3, h4]
  · intro hu row hrow hid
    rw [resolve_pure_staged]
    have hex : ∃ s ∈ db, (fun s => s.id == ident) s = true := ⟨row, hrow, by simp [hid]⟩
    have hs : (db.find? (fun s => s.id == ident)).isSome := List.find?_isSome.mpr hex
    obtain ⟨s, hfind⟩ := Option.isSome_iff_exists.mp hs
    simp [stage1Uuid, hu, hfind]

/-- C6 witness: an exact UUID of a catalog row resolves to itself, and a
concrete stage-one success propagates. -/
theorem c6_witness :
    resolveServiceWithFallback (pureResolverDb dbUuidRow)
      "123e4567-e89b-42d3-a456-426614174000" =
        some "123e4567-e89b-42d3-a456-426614174000" :=
  (c6_resolver_stages dbUuidRow "123e4567-e89b-42d3-a456-426614174000").2.2.2.2.2
    (by decide) ⟨"123e4567-e89b-42d3-a456-426614174000", "Email Migration and Setup", "email"⟩
    (by simp [dbUuidRow]) rfl

/-
Claims C7/C10 — failures before order creation.
-/

/-- When every orchestrator attempt fails identically without touching any
state (as all the precondition checks of steps 1-6 do), the outer loop —
whether or not it retries — ends with the enhanced error, leaves the orders
relation and the call counter unchanged, and appends exactly the one audit
row of the final failure. -/
theorem go_const_error (env : Env) (pkg : String) (tot : ℚ) (cur : String) (e : PError)
    (h : ∀ call orders, createPaymentIntentAttempt env pkg tot cur call orders =
      (.error e, call, orders, [])) :
    ∀ fuel call orders audit delays, fuel ≠ 0 →
      (createPaymentIntentGo env pkg tot cur fuel call orders audit delays).result =
          .error (enhanceError e)
      ∧ (createPaymentIntentGo env pkg tot cur fuel call orders audit delays).orders = orders
      ∧ (createPaymentIntentGo env pkg tot cur fuel call orders audit delays).zohoCalls = call
      ∧ (createPaymentIntentGo env pkg tot cur fuel call orders audit delays).audit =
          audit ++ (if env.auditOk then [failureAuditEntry e] else []) := by
  intro fuel
  induction fuel with
  | zero => intro call orders audit delays h0; exact absurd rfl h0
  | succ n ih =>
    intro call orders audit delays _
    by_cases hb : (n = 0 || !isRetryableError e) = true
    · simp [createPaymentIntentGo, h call orders, hb]
    · have hb' : (decide (n = 0) || !isRetryableError e) = false := by
        simpa using hb
      have hn : n ≠ 0 := by
        intro h0
        rw [h0] at hb'
        simp at hb'
      have step : createPaymentIntentGo env pkg tot cur (n + 1) call orders audit delays =
          createPaymentIntentGo env pkg tot cur n call orders audit
            (delays ++ [] ++ [RETRY_DELAY * 2 ^ (MAX_RETRIES - (n + 1))]) := by
        simp [createPaymentIntentGo, h call orders, hb']
      rw [step]
      exact ih call orders audit _ hn

/-- C7: an unverified-email identity fails with `EMAIL_NOT_VERIFIED`, and a
package tier absent from the resolved service's price mapping fails with
`INVALID_PACKAGE`; in both cases the orders relation is left exactly as it
was — no order row is created. -/
theorem c7_precondition_failures (env : Env) (pkg : String) (tot : ℚ) (cur : String)
    (orders0 : List Order) :
    (∀ u, env.user = some u → u.emailConfirmed = false →
      resultErrCode (createPaymentIntent env pkg tot cur orders0).result =
          some "EMAIL_NOT_VERIFIED"
        ∧ (createPaymentIntent env pkg tot cur orders0).orders = orders0)
    ∧ (∀ u sid svc, env.user = some u → u.emailConfirmed = true →
        env.resolveResult = some sid → env.service = some svc →
        pricingLookup svc.pricing pkg = none →
        resultErrCode (createPaymentIntent env pkg tot cur orders0).result =
            some "INVALID_PACKAGE"
          ∧ (createPaymentIntent env pkg tot cur orders0).orders = orders0) := by
  constructor
  · intro u hu hconf
    have h : ∀ call orders, createPaymentIntentAttempt env pkg tot cur call orders =
        (.error ⟨"EMAIL_NOT_VERIFIED",
          "Email verification required. Please verify your email before making purchases.",
          false⟩, call, orders, []) := by
      intro call orders
      simp [createPaymentIntentAttempt, hu, hconf]
    obtain ⟨hr, ho, -, -⟩ :=
      go_const_error env pkg tot cur _ h MAX_RETRIES 0 orders0 [] [] (by decide)
    refine ⟨?_, ho⟩
    rw [createPaymentIntent] at *
    rw [hr]
    rfl
  · intro u sid svc hu hconf hres hsvc hpl
    have h : ∀ call orders, createPaymentIntentAttempt env pkg tot cur call orders =
        (.error ⟨"INVALID_PACKAGE",
          "Package type \x22" ++ pkg ++ "\x22 not available for " ++ svc.name,
          false⟩, call, orders, []) := by
      intro call orders
      simp [createPaymentIntentAttempt, hu, hconf, hres, hsvc, invalidPackageCheck, hpl]
    obtain ⟨hr, ho, -, -⟩ :=
      go_const_error env pkg tot cur _ h MAX_RETRIES 0 orders0 [] [] (by decide)
    refine ⟨?_, ho⟩
    rw [createPaymentIntent] at *
    rw [hr]
    rfl

/-- C7 witness: both precondition failures at concrete environments — an
unverified user, and the absent `enterprise` tier of the one-tier catalog
service — leave the (initially empty) orders relation empty. -/
theorem c7_witness :
    (resultErrCode (createPaymentIntent { baseEnv with user := some ⟨"user-1", false⟩ }
          "basic" 4 "USD" []).result = some "EMAIL_NOT_VERIFIED"
      ∧ (createPaymentIntent { baseEnv with user := some ⟨"user-1", false⟩ }
          "basic" 4 "USD" []).orders = [])
    ∧ (resultErrCode (createPaymentIntent baseEnv "enterprise" 4 "USD" []).result =
          some "INVALID_PACKAGE"
      ∧ (createPaymentIntent baseEnv "enterprise" 4 "USD" []).orders = []) :=
  ⟨(c7_precondition_failures { baseEnv with user := some ⟨"user-1", false⟩ } "basic" 4 "USD"
      []).1 ⟨"user-1", false⟩ rfl rfl,
    (c7_precondition_failures baseEnv "enterprise" 4 "USD" []).2 okUser "svc-1" svcBasic
      rfl rfl rfl rfl (by decide)⟩

/-- C10: the resolver never propagates an error — whenever the staged
search throws, the resolver returns `null` — and the orchestrator turns a
`null` resolution into the typed `SERVICE_NOT_FOUND` failure with no order
row created, exactly as for a genuinely missing service. -/
theorem c10_resolver_never_throws :
    (∀ dbA ident err, resolveStagesExc dbA ident = .error err →
      resolveServiceWithFallback dbA ident = none)
    ∧ (∀ env pkg tot cur orders0 u, env.user = some u → u.emailConfirmed = true →
        env.resolveResult = none →
        resultErrCode (createPaymentIntent env pkg tot cur
            (orders0 : List Order)).result = some "SERVICE_NOT_FOUND"
          ∧ (createPaymentIntent env pkg tot cur orders0).orders = orders0) := by
  constructor
  · intro dbA ident err herr
    rw [resolveServiceWithFallback, herr]
  · intro env pkg tot cur orders0 u hu hconf hres
    have h : ∀ call orders, createPaymentIntentAttempt env pkg tot cur call orders =
        (.error ⟨"SERVICE_NOT_FOUND",
          "Service not found: " ++ env.serviceIdentifier ++
            ". Please check the service ID and try again.", false⟩, call, orders, []) := by
      intro call orders
      simp [createPaymentIntentAttempt, hu, hconf, hres]
    obtain ⟨hr, ho, -, -⟩ :=
      go_const_error env pkg tot cur _ h MAX_RETRIES 0 orders0 [] [] (by decide)
    refine ⟨?_, ho⟩
    rw [createPaymentIntent] at *
    rw [hr]
    rfl

/-- C10 witness: a database that throws on every query resolves to `null`,
and a `null` resolution at the concrete environment yields
`SERVICE_NOT_FOUND` with no order created. -/
theorem c10_witness :
    resolveServiceWithFallback failingResolverDb "email migration" = none
    ∧ resultErrCode (createPaymentIntent { baseEnv with resolveResult := none }
        "basic" 4 "USD" []).result = some "SERVICE_NOT_FOUND"
    ∧ (createPaymentIntent { baseEnv with resolveResult := none }
        "basic" 4 "USD" []).orders = [] := by
  refine ⟨c10_resolver_never_throws.1 failingResolverDb "email migration"
      "database unreachable" rfl, ?_, ?_⟩
  · exact (c10_resolver_never_throws.2 { baseEnv with resolveResult := none } "basic" 4 "USD"
      [] okUser rfl rfl rfl).1
  · exact (c10_resolver_never_throws.2 { baseEnv with resolveResult := none } "basic" 4 "USD"
      [] okUser rfl rfl rfl).2

/-
Claim C9 — three-currency amounts.
-/

/-- The fallback amounts at the counterexample input `0.01 AUD`: the USD
conversion `0.01 / 1.52` rounds back up to `0.01`. -/
theorem fallback_amounts_smallest_aud :
    calculateCurrencyAmountsFallback (1 / 100) "AUD" = ⟨1 / 100, 55 / 100, 1 / 100⟩ := by
  have h1 : round2 (1 / 100 / rateAUD) = ((1 : ℤ) : ℚ) / 100 :=
    round2_eq _ 1 (by rw [rateAUD]; norm_num) (by rw [rateAUD]; norm_num)
  have h2 : round2 (1 / 100 / rateAUD * rateINR) = ((55 : ℤ) : ℚ) / 100 :=
    round2_eq _ 55 (by rw [rateAUD, rateINR]; norm_num) (by rw [rateAUD, rateINR]; norm_num)
  have h3 : round2 (1 / 100 : ℚ) = ((1 : ℤ) : ℚ) / 100 :=
    round2_eq _ 1 (by norm_num) (by norm_num)
  simp only [calculateCurrencyAmountsFallback, String.reduceEq, reduceIte]
  rw [h1, h2, h3]
  norm_num

/-- C9 counterexample: at amount `0.01` in currency `AUD` (with the live
lookup failing, so the fixed rates apply) two of the three stored amounts —
not exactly one — equal the true transaction amount, because the derived
USD conversion `0.01 / 1.52` rounds back to `0.01`. -/
theorem c9_counterexample :
    amountsEqualCount (calculateCurrencyAmounts (fun _ _ _ => none) (1 / 100) "AUD")
        (1 / 100) = 2
    ∧ amountsEqualCount (calculateCurrencyAmounts (fun _ _ _ => none) (1 / 100) "AUD")
        (1 / 100) ≠ 1 := by
  have hA : calculateCurrencyAmounts (fun _ _ _ => none) (1 / 100) "AUD" =
      ⟨1 / 100, 55 / 100, 1 / 100⟩ := by
    rw [calculateCurrencyAmounts, calculateCurrencyAmountsTry]
    simp only [String.reduceEq, reduceIte]
    exact fallback_amounts_smallest_aud
  rw [hA]
  constructor
  · show (if (1 : ℚ) / 100 = 1 / 100 then 1 else 0) +
        (if (55 : ℚ) / 100 = 1 / 100 then 1 else 0) +
        (if (1 : ℚ) / 100 = 1 / 100 then 1 else 0) = 2
    norm_num
  · show (if (1 : ℚ) / 100 = 1 / 100 then 1 else 0) +
        (if (55 : ℚ) / 100 = 1 / 100 then 1 else 0) +
        (if (1 : ℚ) / 100 = 1 / 100 then 1 else 0) ≠ 1
    norm_num

/-- C9 (amended): for every amount and supported currency the component for
the transaction currency is the amount itself rounded to two decimals
(passed through, never converted, on both the live and the fallback path),
and on the fallback path the other two components are derived through the
fixed rates 83.25 INR/USD and 1.52 AUD/USD and rounded; so the component
for the transaction currency always equals the rounded true amount — but
not necessarily exactly one of the three (see the counterexample). -/
theorem c9_amounts (conv : ℚ → String → String → Option ℚ) (x : ℚ) (c : String)
    (hc : c = "USD" ∨ c = "INR" ∨ c = "AUD") :
    componentFor c (calculateCurrencyAmounts conv x c) = round2 x
    ∧ calculateCurrencyAmountsFallback x "USD" =
        ⟨round2 x, round2 (x * rateINR), round2 (x * rateAUD)⟩
    ∧ calculateCurrencyAmountsFallback x "INR" =
        ⟨round2 (x / rateINR), round2 x, round2 (x / rateINR * rateAUD)⟩
    ∧ calculateCurrencyAmountsFallback x "AUD" =
        ⟨round2 (x / rateAUD), round2 (x / rateAUD * rateINR), round2 x⟩ := by
  refine ⟨?_, by simp [calculateCurrencyAmountsFallback],
    by simp [calculateCurrencyAmountsFallback],
    by simp [calculateCurrencyAmountsFallback]⟩
  rcases hc with hc | hc | hc <;> subst hc
  · cases h1 : conv x "USD" "INR" <;> cases h2 : conv x "USD" "AUD" <;>
      simp [calculateCurrencyAmounts, calculateCurrencyAmountsTry,
        calculateCurrencyAmountsFallback, componentFor, h1, h2]
  · cases h1 : conv x "INR" "USD" <;> cases h2 : conv x "INR" "AUD" <;>
      simp [calculateCurrencyAmounts, calculateCurrencyAmountsTry,
        calculateCurrencyAmountsFallback, componentFor, h1, h2]
  · cases h1 : conv x "AUD" "USD" <;> cases h2 : conv x "AUD" "INR" <;>
      simp [calculateCurrencyAmounts, calculateCurrencyAmountsTry,
        calculateCurrencyAmountsFallback, componentFor, h1, h2]

/-- C9 witness: the pass-through component at a concrete input. -/
theorem c9_witness :
    componentFor "USD" (calculateCurrencyAmounts (fun _ _ _ => none) 4 "USD") = round2 4 :=
  (c9_amounts (fun _ _ _ => none) 4 "USD" (Or.inl rfl)).1

/-
Claim C8 — the alternative payment channels against step 6.
-/

/-- C8 counterexample: for the 152 AUD order the email channel stores
`amount_usd = 152 / 83.25` (its inline formula divides by the INR rate even
for AUD), while step 6 of the orchestrator stores
`round2 (152 / 1.52) = 100` — the two order rows are not identical in
content. -/
theorem c8_counterexample :
    (orderOfAlt (createEmailPayment (some "user-1") true "ord-1" (fun s => s) dC8)).map
        Order.amount_usd ≠
      some ((mkPendingOrder "ord-1" "user-1" "svc-1" "basic"
        (calculateCurrencyAmounts (fun _ _ _ => none) 152 "AUD") "AUD" "zoho").amount_usd) := by
  have hl : (orderOfAlt (createEmailPayment (some "user-1") true "ord-1" (fun s => s)
      dC8)).map Order.amount_usd = some (152 / rateINR) := rfl
  have hr2 : round2 (152 / rateAUD) = ((10000 : ℤ) : ℚ) / 100 :=
    round2_eq _ 10000 (by rw [rateAUD]; norm_num) (by rw [rateAUD]; norm_num)
  have hrr : (mkPendingOrder "ord-1" "user-1" "svc-1" "basic"
      (calculateCurrencyAmounts (fun _ _ _ => none) 152 "AUD") "AUD" "zoho").amount_usd =
      round2 (152 / rateAUD) := by
    rw [calculateCurrencyAmounts, calculateCurrencyAmountsTry]
    simp only [String.reduceEq, reduceIte]
    rw [calculateCurrencyAmountsFallback]
    simp only [String.reduceEq, reduceIte]
    rfl
  rw [hl, hrr, hr2, rateINR]
  intro hcontra
  rw [Option.some_inj] at hcontra
  norm_num at hcontra

/-- C8 (amended): each alternative channel persists an order that agrees
with the orchestrator's step-6 order in id, client, service, package,
transaction currency and pending status, carries the gateway tag `email` or
`bank_transfer`, and returns a channel-specific URL (a `mailto:` compose
link, or the internal bank-transfer instructions page); but its
three-currency amounts come from the channels' own inline, unrounded
formula (which treats the amount as USD for both derived conversions)
rather than from the orchestrator's conversion, so the amount columns
differ in general. -/
theorem c8_alt_channels (uid oid : String) (enc : String → String) (d : AltOrderData) :
    (∀ o url, createEmailPayment (some uid) true oid enc d = .ok (o, url) →
      o = mkPendingOrder oid uid d.serviceId d.packageType
          (altChannelAmounts d.amount d.currency) d.currency "email"
      ∧ (∀ conv : ℚ → String → String → Option ℚ,
          o.id = (mkPendingOrder oid uid d.serviceId d.packageType
              (calculateCurrencyAmounts conv d.amount d.currency) d.currency "zoho").id
          ∧ o.client_id = (mkPendingOrder oid uid d.serviceId d.packageType
              (calculateCurrencyAmounts conv d.amount d.currency) d.currency "zoho").client_id
          ∧ o.service_id = (mkPendingOrder oid uid d.serviceId d.packageType
              (calculateCurrencyAmounts conv d.amount d.currency) d.currency "zoho").service_id
          ∧ o.package_type = (mkPendingOrder oid uid d.serviceId d.packageType
              (calculateCurrencyAmounts conv d.amount d.currency) d.currency "zoho").package_type
          ∧ o.currency = (mkPendingOrder oid uid d.serviceId d.packageType
              (calculateCurrencyAmounts conv d.amount d.currency) d.currency "zoho").currency
          ∧ o.status = (mkPendingOrder oid uid d.serviceId d.packageType
              (calculateCurrencyAmounts conv d.amount d.currency) d.currency "zoho").status)
      ∧ o.payment_gateway = "email"
      ∧ (∃ rest, url = "mailto:contact@mechinweb.com?subject=" ++ rest))
    ∧ (∀ o url, createBankTransferPayment (some uid) true oid d = .ok (o, url) →
      o = mkPendingOrder oid uid d.serviceId d.packageType
          (altChannelAmounts d.amount d.currency) d.currency "bank_transfer"
      ∧ o.payment_gateway = "bank_transfer"
      ∧ url = "/payment/bank-transfer?order_id=" ++ oid) := by
  constructor
  · intro o url h
    rw [createEmailPayment] at h
    simp only [Bool.not_true, reduceIte] at h
    injection h with hpair
    rw [Prod.mk.injEq] at hpair
    obtain ⟨ho, hu⟩ := hpair
    subst ho
    subst hu
    refine ⟨rfl, fun conv => ⟨rfl, rfl, rfl, rfl, rfl, rfl⟩, rfl,
      ⟨enc ("Payment for " ++ d.serviceName ++ " - Order " ++ oid) ++
        ("&body=" ++ enc (emailPaymentBody d oid)), ?_⟩⟩
    rw [String.append_assoc, String.append_assoc]
  · intro o url h
    rw [createBankTransferPayment] at h
    simp only [Bool.not_true, reduceIte] at h
    injection h with hpair
    rw [Prod.mk.injEq] at hpair
    obtain ⟨ho, hu⟩ := hpair
    subst ho
    subst hu
    exact ⟨rfl, rfl, rfl⟩

/-- C8 witness: the bank-transfer channel at the concrete 152 AUD order,
through the amended theorem. -/
theorem c8_witness :
    (orderOfAlt (createBankTransferPayment (some "user-1") true "ord-1" dC8)).map
        Order.payment_gateway = some "bank_transfer" := by
  have h := (c8_alt_channels "user-1" "ord-1" (fun s => s) dC8).2
    (mkPendingOrder "ord-1" "user-1" dC8.serviceId dC8.packageType
      (altChannelAmounts dC8.amount dC8.currency) dC8.currency "bank_transfer")
    ("/payment/bank-transfer?order_id=" ++ "ord-1") rfl
  show some ((mkPendingOrder "ord-1" "user-1" dC8.serviceId dC8.packageType
      (altChannelAmounts dC8.amount dC8.currency) dC8.currency
      "bank_transfer").payment_gateway) = some "bank_transfer"
  rw [h.2.1]

/-
Claim C1 — order rows per call.
-/

/-- Updating the last order row with the Zoho identifiers never changes how
many rows there are. -/
theorem updateLastOrder_length (z : ZohoInvoiceResult) :
    ∀ l : List Order, (updateLastOrder z l).length = l.length
  | [] => rfl
  | [_] => rfl
  | o :: o2 :: rest => by
    show (o :: updateLastOrder z (o2 :: rest)).length = (o :: o2 :: rest).length
    simp [updateLastOrder_length z (o2 :: rest)]

/-- One orchestrator attempt inserts at most one order row. -/
theorem attempt_orders_length (env : Env) (pkg : String) (tot : ℚ) (cur : String)
    (call : Nat) (orders : List Order) :
    (createPaymentIntentAttempt env pkg tot cur call orders).2.2.1.length ≤
      orders.length + 1 := by
  rw [createPaymentIntentAttempt]
  cases env.user with
  | none => simp
  | some u =>
    cases hc : u.emailConfirmed <;> simp only [hc, Bool.not_false, Bool.not_true, reduceIte]
    · simp
    · cases env.resolveResult with
      | none => simp
      | some sid =>
        cases env.service with
        | none => simp
        | some svc =>
          cases hic : invalidPackageCheck svc.pricing pkg <;>
            simp only [hic, reduceIte]
          · cases env.clientProfile with
            | dbError => simp
            | missing => simp
            | found nm em =>
              cases hins : env.orderInsertOk <;>
                simp only [hins, Bool.not_false, Bool.not_true, reduceIte]
              · simp
              · cases hz : createZohoInvoiceWithRetry env.zoho call with
                | mk r rest =>
                  cases r with
                  | error e => simp
                  | ok z => simp [updateLastOrder_length]
          · simp

/-- The outer loop inserts at most one order row per remaining attempt. -/
theorem go_orders_length (env : Env) (pkg : String) (tot : ℚ) (cur : String) :
    ∀ fuel call orders audit delays,
      (createPaymentIntentGo env pkg tot cur fuel call orders audit delays).orders.length ≤
        orders.length + fuel := by
  intro fuel
  induction fuel with
  | zero => intro call orders audit delays; simp [createPaymentIntentGo]
  | succ n ih =>
    intro call orders audit delays
    have hb := attempt_orders_length env pkg tot cur call orders
    rw [createPaymentIntentGo]
    match h : createPaymentIntentAttempt env pkg tot cur call orders with
    | (.ok pi, call1, orders1, ds) =>
      rw [h] at hb
      have hb1 : orders1.length ≤ orders.length + 1 := hb
      simpa using Nat.le_trans hb1 (by omega)
    | (.error e, call1, orders1, ds) =>
      rw [h] at hb
      have hb1 : orders1.length ≤ orders.length + 1 := hb
      by_cases hcond : (decide (n = 0) || !isRetryableError e) = true
      · simp only [hcond, if_true]
        simpa using Nat.le_trans hb1 (by omega)
      · simp only [hcond, if_false]
        exact Nat.le_trans (ih call1 orders1 audit _) (by omega)

/-- C1 counterexample: when the inner invoicing loop exhausts its three
attempts on a retryable error, the outer loop re-runs the whole attempt —
including step 6 — so this call succeeds having created two order rows, not
at most one. -/
theorem c1_counterexample :
    exceptIsOk (createPaymentIntent envC1 "basic" 4 "USD" []).result = true
    ∧ (createPaymentIntent envC1 "basic" 4 "USD" []).orders.length = 2 := by
  constructor
  · decide
  · decide
/-- C1 (amended): within one orchestrator attempt the invoicing retries
reuse the same order row — if the Zoho call fails twice and succeeds on the
third attempt, the call returns one successful payment intent having created
exactly one order row and no audit failure; but across outer-loop retries a
single `createPaymentIntent` call can create up to `MAX_RETRIES` order rows
(see the counterexample), bounded by one row per outer attempt. -/
theorem c1_inner_retry_reuses_order (env : Env) (pkg : String) (tot : ℚ) (cur : String)
    (orders0 : List Order) (u : User) (sid : String) (svc : Service) (p : ℚ)
    (nm em : String) (e0 e1 : PError) (z : ZohoInvoiceResult)
    (hu : env.user = some u) (hconf : u.emailConfirmed = true)
    (hres : env.resolveResult = some sid) (hsvc : env.service = some svc)
    (hpl : pricingLookup svc.pricing pkg = some p) (hp0 : p ≠ 0)
    (hcl : env.clientProfile = .found nm em) (hins : env.orderInsertOk = true)
    (hz0 : env.zoho 0 = .fail e0) (hz1 : env.zoho 1 = .fail e1) (hz2 : env.zoho 2 = .ok z) :
    exceptIsOk (createPaymentIntent env pkg tot cur orders0).result = true
    ∧ (createPaymentIntent env pkg tot cur orders0).orders.length = orders0.length + 1
    ∧ (createPaymentIntent env pkg tot cur orders0).zohoCalls = 3
    ∧ (createPaymentIntent env pkg tot cur orders0).audit = []
    ∧ (∀ (env2 : Env) (pkg2 : String) (tot2 : ℚ) (cur2 : String) (os2 : List Order),
        (createPaymentIntent env2 pkg2 tot2 cur2 os2).orders.length ≤
          os2.length + MAX_RETRIES) := by
  have hic : invalidPackageCheck svc.pricing pkg = false := by
    rw [invalidPackageCheck, hpl]
    simp [hp0]
  have hz : createZohoInvoiceWithRetry env.zoho 0 =
      (.ok z, 3, [RETRY_DELAY * 1, RETRY_DELAY * 2]) := by
    rw [createZohoInvoiceWithRetry, MAX_RETRIES]
    simp [zohoRetryGo, hz0, hz1, hz2, MAX_RETRIES]
  have hatt : createPaymentIntentAttempt env pkg tot cur 0 orders0 =
      (.ok ⟨z.invoice_id, z.invoice_number, z.payment_url, z.total, z.status, z.customer_id,
        env.txnId⟩, 3,
        updateLastOrder z (orders0 ++ [mkPendingOrder (env.newOrderId orders0.length) u.id sid
          pkg (calculateCurrencyAmounts env.conv tot cur) cur "zoho"]),
        [RETRY_DELAY * 1, RETRY_DELAY * 2]) := by
    rw [createPaymentIntentAttempt, hu]
    simp only [hconf, Bool.not_true, Bool.false_eq_true, if_false, reduceIte, hres, hsvc, hic,
      hcl, hins, hz]
  have hrun : createPaymentIntent env pkg tot cur orders0 =
      { result := .ok ⟨z.invoice_id, z.invoice_number, z.payment_url, z.total, z.status,
          z.customer_id, env.txnId⟩,
        orders := updateLastOrder z (orders0 ++ [mkPendingOrder (env.newOrderId orders0.length)
          u.id sid pkg (calculateCurrencyAmounts env.conv tot cur) cur "zoho"]),
        audit := [],
        delays := [] ++ [RETRY_DELAY * 1, RETRY_DELAY * 2],
        zohoCalls := 3 } := by
    rw [createPaymentIntent, MAX_RETRIES]
    rw [createPaymentIntentGo, hatt]
  refine ⟨?_, ?_, ?_, ?_, ?_⟩
  · rw [hrun]
    rfl
  · rw [hrun]
    show (updateLastOrder z _).length = orders0.length + 1
    rw [updateLastOrder_length]
    simp
  · rw [hrun]
  · rw [hrun]
  · intro env2 pkg2 tot2 cur2 os2
    exact go_orders_length env2 pkg2 tot2 cur2 MAX_RETRIES 0 os2 [] []

/-- C1 witness: the two-failures-then-success scenario at the concrete
environment returns one successful payment intent, having created exactly
one order row, with three Zoho calls and no audit failure. -/
theorem c1_witness :
    exceptIsOk (createPaymentIntent envC1w "basic" 4 "USD" []).result = true
    ∧ (createPaymentIntent envC1w "basic" 4 "USD" []).orders.length = 1
    ∧ (createPaymentIntent envC1w "basic" 4 "USD" []).zohoCalls = 3
    ∧ (createPaymentIntent envC1w "basic" 4 "USD" []).audit = [] :=
  have h := c1_inner_retry_reuses_order envC1w "basic" 4 "USD" [] okUser "svc-1" svcBasic 4
    "Alice Smith" "alice@example.com" timeoutPError timeoutPError okZohoResult
    rfl rfl rfl rfl rfl (by norm_num) rfl rfl rfl rfl rfl
  ⟨h.1, h.2.1, h.2.2.1, h.2.2.2.1⟩

/-- C2 counterexample: a non-retryable invoicing error IS retried — the
inner loop does not consult the retryable classification — and the call
succeeds on the second Zoho call with no audit row and no raised error. -/
theorem c2_counterexample :
    isRetryableError zohoAuthPError = false
    ∧ exceptIsOk (createPaymentIntent envC2 "basic" 4 "USD" []).result = true
    ∧ (createPaymentIntent envC2 "basic" 4 "USD" []).zohoCalls = 2
    ∧ (createPaymentIntent envC2 "basic" 4 "USD" []).audit = [] := by
  refine ⟨?_, ?_, ?_, ?_⟩ <;> decide

/-- C2 (amended): the inner invoicing loop retries every failure — not only
retryable ones — up to 3 attempts with delays `RETRY_DELAY * attempt`;
the retryable classification gates only the outer orchestrator loop.  When
every invoicing call fails with the same error: a non-retryable error ends
the call after exactly 3 Zoho calls, one order row and exactly one
`success = false` audit row, with inner delays 1000 and 2000 ms; a
retryable error makes the outer loop re-run the whole attempt, for 9 Zoho
calls and 3 order rows, still with exactly one audit row. -/
theorem c2_retry_classification (env : Env) (pkg : String) (tot : ℚ) (cur : String)
    (orders0 : List Order) (u : User) (sid : String) (svc : Service) (p : ℚ)
    (nm em : String) (e : PError)
    (hu : env.user = some u) (hconf : u.emailConfirmed = true)
    (hres : env.resolveResult = some sid) (hsvc : env.service = some svc)
    (hpl : pricingLookup svc.pricing pkg = some p) (hp0 : p ≠ 0)
    (hcl : env.clientProfile = .found nm em) (hins : env.orderInsertOk = true)
    (hz : ∀ i, env.zoho i = .fail e) (haud : env.auditOk = true) :
    (isRetryableError e = false →
      (createPaymentIntent env pkg tot cur orders0).result = .error (enhanceError e)
      ∧ (createPaymentIntent env pkg tot cur orders0).zohoCalls = 3
      ∧ (createPaymentIntent env pkg tot cur orders0).audit = [failureAuditEntry e]
      ∧ (createPaymentIntent env pkg tot cur orders0).delays =
          [RETRY_DELAY * 1, RETRY_DELAY * 2]
      ∧ (createPaymentIntent env pkg tot cur orders0).orders.length = orders0.length + 1)
    ∧ (isRetryableError e = true →
      (createPaymentIntent env pkg tot cur orders0).result = .error (enhanceError e)
      ∧ (createPaymentIntent env pkg tot cur orders0).zohoCalls = 9
      ∧ (createPaymentIntent env pkg tot cur orders0).audit = [failureAuditEntry e]
      ∧ (createPaymentIntent env pkg tot cur orders0).orders.length = orders0.length + 3) := by
  have hic : invalidPackageCheck svc.pricing pkg = false := by
    rw [invalidPackageCheck, hpl]
    simp [hp0]
  have hzl : ∀ call, createZohoInvoiceWithRetry env.zoho call =
      (.error e, call + 3, [RETRY_DELAY * 1, RETRY_DELAY * 2]) := by
    intro call
    rw [createZohoInvoiceWithRetry, MAX_RETRIES]
    simp [zohoRetryGo, hz call, hz (call + 1), hz (call + 2), MAX_RETRIES]
  have hatt : ∀ call orders, createPaymentIntentAttempt env pkg tot cur call orders =
      (.error e, call + 3,
        orders ++ [mkPendingOrder (env.newOrderId orders.length) u.id sid pkg
          (calculateCurrencyAmounts env.conv tot cur) cur "zoho"],
        [RETRY_DELAY * 1, RETRY_DELAY * 2]) := by
    intro call orders
    rw [createPaymentIntentAttempt, hu]
    simp only [hconf, Bool.not_true, Bool.false_eq_true, if_false, reduceIte, hres, hsvc, hic,
      hcl, hins, hzl]
  constructor
  · intro hr
    have hrun : createPaymentIntent env pkg tot cur orders0 =
        { result := .error (enhanceError e),
          orders := orders0 ++ [mkPendingOrder (env.newOrderId orders0.length) u.id sid pkg
            (calculateCurrencyAmounts env.conv tot cur) cur "zoho"],
          audit := [] ++ [failureAuditEntry e],
          delays := [] ++ [RETRY_DELAY * 1, RETRY_DELAY * 2],
          zohoCalls := 0 + 3 } := by
      rw [createPaymentIntent, MAX_RETRIES]
      rw [createPaymentIntentGo, hatt]
      simp only [hr, Bool.not_false, Bool.or_true, if_true, haud, reduceIte]
    rw [hrun]
    refine ⟨rfl, rfl, rfl, rfl, ?_⟩
    simp
  · intro hr
    have hstep : ∀ rem call orders audit delays, rem ≠ 0 →
        createPaymentIntentGo env pkg tot cur (rem + 1) call orders audit delays =
          createPaymentIntentGo env pkg tot cur rem (call + 3)
            (orders ++ [mkPendingOrder (env.newOrderId orders.length) u.id sid pkg
              (calculateCurrencyAmounts env.conv tot cur) cur "zoho"]) audit
            (delays ++ [RETRY_DELAY * 1, RETRY_DELAY * 2] ++
              [RETRY_DELAY * 2 ^ (MAX_RETRIES - (rem + 1))]) := by
      intro rem call orders audit delays hrem
      rw [createPaymentIntentGo, hatt]
      have hcondf : (decide (rem = 0) || !isRetryableError e) = false := by
        simp [hrem, hr]
      simp only [hcondf, Bool.false_eq_true, if_false, reduceIte]
    have hlast : ∀ call orders audit delays,
        createPaymentIntentGo env pkg tot cur 1 call orders audit delays =
          { result := .error (enhanceError e),
            orders := orders ++ [mkPendingOrder (env.newOrderId orders.length) u.id sid pkg
              (calculateCurrencyAmounts env.conv tot cur) cur "zoho"],
            audit := audit ++ [failureAuditEntry e],
            delays := delays ++ [RETRY_DELAY * 1, RETRY_DELAY * 2],
            zohoCalls := call + 3 } := by
      intro call orders audit delays
      rw [createPaymentIntentGo, hatt]
      simp only [decide_eq_true_eq, Bool.or_eq_true, decide_eq_true, haud, reduceIte]
      simp [haud]
    have hrun : createPaymentIntent env pkg tot cur orders0 =
        createPaymentIntentGo env pkg tot cur 1 (0 + 3 + 3)
          ((orders0 ++ [mkPendingOrder (env.newOrderId orders0.length) u.id sid pkg
              (calculateCurrencyAmounts env.conv tot cur) cur "zoho"]) ++
            [mkPendingOrder (env.newOrderId (orders0 ++ [mkPendingOrder
              (env.newOrderId orders0.length) u.id sid pkg
              (calculateCurrencyAmounts env.conv tot cur) cur "zoho"]).length) u.id sid pkg
              (calculateCurrencyAmounts env.conv tot cur) cur "zoho"]) []
          (([] ++ [RETRY_DELAY * 1, RETRY_DELAY * 2] ++
              [RETRY_DELAY * 2 ^ (MAX_RETRIES - 3)]) ++
            [RETRY_DELAY * 1, RETRY_DELAY * 2] ++ [RETRY_DELAY * 2 ^ (MAX_RETRIES - 2)]) := by
      rw [createPaymentIntent, MAX_RETRIES]
      rw [hstep 2 0 orders0 [] [] (by omega)]
      rw [hstep 1 (0 + 3) _ [] _ (by omega)]
      rfl
    rw [hrun, hlast]
    refine ⟨rfl, rfl, rfl, ?_⟩
    simp

/-- C2 witness: with every invoicing call failing non-retryably, the call
ends after exactly three Zoho calls, one `success = false` audit row, inner
delays of 1000 and 2000 ms, one order row, and the typed error re-raised. -/
theorem c2_witness :
    (createPaymentIntent envC2w "basic" 4 "USD" []).result =
        .error (enhanceError zohoAuthPError)
    ∧ (createPaymentIntent envC2w "basic" 4 "USD" []).zohoCalls = 3
    ∧ (createPaymentIntent envC2w "basic" 4 "USD" []).audit =
        [failureAuditEntry zohoAuthPError]
    ∧ (createPaymentIntent envC2w "basic" 4 "USD" []).delays =
        [RETRY_DELAY * 1, RETRY_DELAY * 2]
    ∧ (createPaymentIntent envC2w "basic" 4 "USD" []).orders.length = 1 :=
  have h := (c2_retry_classification envC2w "basic" 4 "USD" [] okUser "svc-1" svcBasic 4
    "Alice Smith" "alice@example.com" zohoAuthPError
    rfl rfl rfl rfl rfl (by norm_num) rfl rfl (fun _ => rfl) rfl).1 (by decide)
  ⟨h.1, h.2.1, h.2.2.1, h.2.2.2.1, h.2.2.2.2⟩
